import Mathlib

/-! GC VM operations (`src/hotspot/share/gc/shared/gcVMOperations.cpp`).

A shallow embedding of the operations of `gcVMOperations.cpp`.  The C++ code
acts on global runtime state (the heap lock, the GC locker, the heap manager's
collection counters, the metaspace allocator); here that state is an explicit
`World` value that every function takes and returns, and every call into a
collaborator is appended to `World.trace`, so that call counts and call order
can be stated.  Functions that can end the process (`assert`,
`vm_exit_during_initialization`) return `Except Fatal _`.
-/

namespace Hotspot

/-! ## Collaborator types -/

/-- Modelled from the spec: the enumeration `GCCause::Cause` lives in
`gcCause.hpp`.  The spec (section 3) calls it an "enumerated reason code" with a
"no cause" sentinel; the constructors named here are the ones the source file
mentions, `other` stands for the rest of the enumeration. -/
inductive GCCause where
  | no_gc
  | allocation_failure
  | heap_inspection
  | metadata_GC_threshold
  | metadata_GC_clear_soft_refs
  | other (code : Nat)
  deriving DecidableEq, Repr

/-- Modelled from the spec: `Metaspace::MetadataType`, "which metadata pool"
(section 3, metadata allocation request). -/
inductive MetadataType where
  | ClassType
  | NonClassType
  deriving DecidableEq, Repr

/-- The ways an operation of this file can end the process instead of returning.
The two `assert` constructors stand for the two `assert(...)` statements of
the file (checked builds); the third for `vm_exit_during_initialization`. -/
inductive Fatal where
  | assert_illegal_gccause
  | assert_allocation_requested
  | vm_exit_during_initialization
  deriving DecidableEq, Repr

/-- A `MetaWord*`: `none` is `nullptr`, `some a` a non-null address. -/
abbrev MetaWordPtr := Option Nat

/-- Calls made into collaborators, in the order they are made. -/
inductive Event where
  | GCLocker_block
  | GCLocker_unblock
  | Heap_lock_lock
  | Heap_lock_unlock
  | Heap_lock_notify_all
  | skip_operation (stale : Bool)
  | try_trigger_cleanup
  | collect (cause : GCCause)
  | collect_as_vm_thread (cause : GCCause)
  | ensure_parsability (retire_tlabs : Bool)
  | heap_inspection (active_workers : Option Nat)
  | start_concurrent_gc_for_metadata_allocation (cause : GCCause)
  | allocate (size : Nat) (mdtype : MetadataType) (res : MetaWordPtr)
  | expand_and_allocate (size : Nat) (mdtype : MetadataType) (res : MetaWordPtr)
  | send_allocation_requiring_gc_event (bytes : Nat)
  deriving DecidableEq, Repr

/-- Diagnostic lines written through `log_warning(gc)` and `log_debug(gc)`. -/
inductive LogLine where
  | gc_locker_held_pre_dump_gc_skipped
  | g1_full_gc_for_metaspace
  | after_metaspace_gc_failed_to_allocate (size : Nat)
  deriving DecidableEq, Repr

/-- Modelled from the spec: `WorkerThreads` (workerThread.hpp), the "worker-thread
pool optionally supplied by the heap manager", with its "maximum available
workers" and its "active-worker count" (section 4.3 step 3). -/
structure WorkerThreads where
  max_workers : Nat
  active_workers : Nat
  deriving DecidableEq, Repr

/-- Flags, build switches and fixed collaborator behaviour: everything the
operations read but never write.

* `UseSerialGC` ... `ClassUnloadingWithConcurrentMark` are the command-line flags
  of `gc_globals.hpp`; `INCLUDE_G1GC` is the build switch of `macros.hpp`;
  `HeapWordSize` the constant of `globalDefinitions.hpp`;
* `init_completed` is what `is_init_completed()` returns;
* `metaspace_answer k` is what the metaspace allocator returns to the `k`-th
  allocation attempt (`allocate` or `expand_and_allocate`) made on it;
* `collected cause (t, f)` are the heap manager's two counters after a
  `collect` / `collect_as_vm_thread` call with that cause, started at `(t, f)`. -/
structure VM where
  UseSerialGC : Bool
  UseParallelGC : Bool
  UseG1GC : Bool
  UseZGC : Bool
  UseShenandoahGC : Bool
  ClassUnloadingWithConcurrentMark : Bool
  INCLUDE_G1GC : Bool
  init_completed : Bool
  HeapWordSize : Nat
  metaspace_answer : Nat → MetaWordPtr
  collected : GCCause → Nat × Nat → Nat × Nat

/-- The mutable global state the operations act on. -/
structure World where
  /-- value of `Universe::heap()->total_collections()` -/
  total_collections : Nat
  /-- value of `Universe::heap()->total_full_collections()` -/
  total_full_collections : Nat
  /-- whether `Heap_lock` is held by the thread running the operation -/
  heap_lock_held : Bool
  /-- the GC locker's "collection blocked" flag, set by `block`, cleared by `unblock` -/
  gc_request_pending : Bool
  /-- value of `GCLocker::is_active()`: some thread is inside a critical section -/
  gclocker_active : Bool
  /-- value of `Universe::has_reference_pending_list()` -/
  has_reference_pending_list : Bool
  /-- value of `Universe::heap()->safepoint_workers()`, `none` for `nullptr` -/
  safepoint_workers : Option WorkerThreads
  /-- number of allocation attempts made on the metaspace so far -/
  metaspace_attempts : Nat
  trace : List Event
  log : List LogLine

/-- Append one collaborator call to the trace. -/
def World.emit (w : World) (e : Event) : World :=
  { w with trace := w.trace ++ [e] }

/-- Append one diagnostic line. -/
def World.log_line (w : World) (l : LogLine) : World :=
  { w with log := w.log ++ [l] }

/-! ## Collaborators, modelled at their interface -/

/-- Modelled from the spec: `Heap_lock->lock()` (mutex.hpp), "acquire a single
global lock" (section 2, 4.1). -/
def Heap_lock.lock (w : World) : World :=
  { w.emit Event.Heap_lock_lock with heap_lock_held := true }

/-- Modelled from the spec: `Heap_lock->unlock()`, "release" of the global heap
lock (section 4.1). -/
def Heap_lock.unlock (w : World) : World :=
  { w.emit Event.Heap_lock_unlock with heap_lock_held := false }

/-- Modelled from the spec: `Heap_lock->notify_all()`, "wake any threads waiting
on the heap lock's condition" (section 4.2). -/
def Heap_lock.notify_all (w : World) : World :=
  w.emit Event.Heap_lock_notify_all

/-- Modelled from the spec: `GCLocker::block()` (gcLocker.hpp), which "suspends
the caller until no native critical section is active and flags future entries
as blocked" (section 4.2 step 2). -/
def GCLocker.block (w : World) : World :=
  { w.emit Event.GCLocker_block with gc_request_pending := true, gclocker_active := false }

/-- Modelled from the spec: `GCLocker::unblock()`, the release of "the GC-locker
block if it was taken" (section 4.2). -/
def GCLocker.unblock (w : World) : World :=
  { w.emit Event.GCLocker_unblock with gc_request_pending := false }

/-- Modelled from the spec: `GCLocker::is_active()`, the `isActive()` query of
section 6. -/
def GCLocker.is_active (w : World) : Bool :=
  w.gclocker_active

/-- Modelled from the spec: `OopMapCache::try_trigger_cleanup()`, "best-effort,
asynchronous, non-blocking for the caller" (section 4.2). -/
def OopMapCache.try_trigger_cleanup (w : World) : World :=
  w.emit Event.try_trigger_cleanup

/-- Modelled from the spec: `CollectedHeap::collect(cause)`, the synchronous
collection "callable from a mutator thread" (section 6); the counters move as
the heap manager (`VM.collected`) says. -/
def CollectedHeap.collect (vm : VM) (cause : GCCause) (w : World) : World :=
  { w.emit (Event.collect cause) with
    total_collections := (vm.collected cause (w.total_collections, w.total_full_collections)).1,
    total_full_collections := (vm.collected cause (w.total_collections, w.total_full_collections)).2 }

/-- Modelled from the spec: `CollectedHeap::collect_as_vm_thread(cause)`, the
collection entry "callable only from the pause-point thread" (section 6). -/
def CollectedHeap.collect_as_vm_thread (vm : VM) (cause : GCCause) (w : World) : World :=
  { w.emit (Event.collect_as_vm_thread cause) with
    total_collections := (vm.collected cause (w.total_collections, w.total_full_collections)).1,
    total_full_collections := (vm.collected cause (w.total_collections, w.total_full_collections)).2 }

/-- Modelled from the spec: `CollectedHeap::ensure_parsability(bool)`,
`ensureParsable()` of section 6. -/
def CollectedHeap.ensure_parsability (retire_tlabs : Bool) (w : World) : World :=
  w.emit (Event.ensure_parsability retire_tlabs)

/-! ## `VM_Heap_Sync_Operation` and `VM_GC_Operation` -/

/-- The fields of `VM_GC_Operation` (declared in gcVMOperations.hpp, named in
section 3 of the spec as `countBefore`, `fullCountBefore`, `requestedFull`,
`prologueSucceeded`, `cause`). -/
structure VM_GC_Operation where
  gc_count_before : Nat
  full_gc_count_before : Nat
  full : Bool
  prologue_succeeded : Bool
  gc_cause : GCCause
  deriving DecidableEq, Repr

/-- The function `VM_Heap_Sync_Operation::doit_prologue`. -/
def VM_Heap_Sync_Operation.doit_prologue (w : World) : Bool × World :=
  (true, Heap_lock.lock w)

/-- The function `VM_Heap_Sync_Operation::doit_epilogue`. -/
def VM_Heap_Sync_Operation.doit_epilogue (w : World) : World :=
  Heap_lock.unlock w

/-- The function `VM_GC_Operation::skip_operation`. -/
def VM_GC_Operation.skip_operation (op : VM_GC_Operation) (w : World) : Bool :=
  let skip : Bool := decide (op.gc_count_before ≠ w.total_collections)
  let skip : Bool :=
    if op.full && skip then decide (op.full_gc_count_before ≠ w.total_full_collections)
    else skip
  skip

/-- The static function `should_use_gclocker`. -/
def should_use_gclocker (vm : VM) : Bool :=
  vm.UseSerialGC || vm.UseParallelGC

/-- The function `VM_GC_Operation::doit_prologue`.  `skip_operation` is virtual in the source;
the override in force is passed as the argument `skip`.  The event
`Event.skip_operation` marks the place of that call in the trace. -/
def VM_GC_Operation.doit_prologue (vm : VM) (skip : VM_GC_Operation → World → Bool)
    (op : VM_GC_Operation) (w : World) : Except Fatal (Bool × VM_GC_Operation × World) :=
  if op.gc_cause = GCCause.no_gc then
    Except.error Fatal.assert_illegal_gccause
  else if !vm.init_completed then
    Except.error Fatal.vm_exit_during_initialization
  else
    let w := if should_use_gclocker vm then GCLocker.block w else w
    let w := (VM_Heap_Sync_Operation.doit_prologue w).2
    let stale := skip op w
    let w := w.emit (Event.skip_operation stale)
    if stale then
      let w := Heap_lock.unlock w
      let w := if should_use_gclocker vm then GCLocker.unblock w else w
      let op := { op with prologue_succeeded := false }
      Except.ok (op.prologue_succeeded, op, w)
    else
      let op := { op with prologue_succeeded := true }
      Except.ok (op.prologue_succeeded, op, w)

/-- The function `VM_GC_Operation::doit_epilogue`. -/
def VM_GC_Operation.doit_epilogue (vm : VM) (w : World) : World :=
  let w := OopMapCache.try_trigger_cleanup w
  let w := if w.has_reference_pending_list then Heap_lock.notify_all w else w
  let w := VM_Heap_Sync_Operation.doit_epilogue w
  if should_use_gclocker vm then GCLocker.unblock w else w

/-! ## Completed collections -/

/-- Modelled from the spec: the heap manager's counters are "incremented exactly
once per completed collection cycle of the respective kind" (section 3); a full
collection is also a collection, so it advances both. -/
def World.complete_collection (w : World) (full : Bool) : World :=
  { w with
    total_collections := w.total_collections + 1,
    total_full_collections :=
      if full then w.total_full_collections + 1 else w.total_full_collections }

/-- The world after a series of completed collections (`true` marks a full one). -/
def World.complete_collections (w : World) (kinds : List Bool) : World :=
  kinds.foldl World.complete_collection w

/-- Modelled from the spec: the constructor of `VM_GC_Operation`
(gcVMOperations.hpp), which stamps the request with its cause, its
`requestedFull` flag and the two counter snapshots (section 3); the prologue
outcome starts as "not succeeded". -/
def VM_GC_Operation.ctor (gc_count_before : Nat) (cause : GCCause)
    (full_gc_count_before : Nat) (full : Bool) : VM_GC_Operation :=
  { gc_count_before := gc_count_before
    full_gc_count_before := full_gc_count_before
    full := full
    prologue_succeeded := false
    gc_cause := cause }

/-- Modelled from the spec: the constructor of `VM_GC_Collect_Operation`
(gcVMOperations.hpp), the "collect operation" layer of the hierarchy of
section 9, which hands its arguments to `VM_GC_Operation`. -/
def VM_GC_Collect_Operation.ctor (gc_count_before : Nat) (cause : GCCause)
    (full_gc_count_before : Nat) (full : Bool) : VM_GC_Operation :=
  VM_GC_Operation.ctor gc_count_before cause full_gc_count_before full

/-! ## `VM_GC_HeapInspection` -/

/-- The class `VM_GC_HeapInspection`: a `VM_GC_Operation` with the `_full_gc`
flag and the requested `_parallel_thread_num` (the output stream `_out` is
represented by the `heap_inspection` event). -/
structure VM_GC_HeapInspection extends VM_GC_Operation where
  full_gc : Bool
  parallel_thread_num : Nat
  deriving DecidableEq, Repr

/-- The function `VM_GC_HeapInspection::skip_operation`. -/
def VM_GC_HeapInspection.skip_operation (_op : VM_GC_HeapInspection) (_w : World) : Bool :=
  false

/-- The function `VM_GC_HeapInspection::doit_prologue`; the shared prologue runs
with the override `VM_GC_HeapInspection::skip_operation`. -/
def VM_GC_HeapInspection.doit_prologue (vm : VM) (op : VM_GC_HeapInspection) (w : World) :
    Except Fatal (Bool × VM_GC_HeapInspection × World) :=
  let w :=
    if op.full_gc && (vm.UseZGC || vm.UseShenandoahGC) then
      CollectedHeap.collect vm GCCause.heap_inspection w
    else w
  match VM_GC_Operation.doit_prologue vm
      (fun _ x => VM_GC_HeapInspection.skip_operation op x) op.toVM_GC_Operation w with
  | Except.error f => Except.error f
  | Except.ok (b, base, w) => Except.ok (b, { op with toVM_GC_Operation := base }, w)

/-- The function `VM_GC_HeapInspection::collect`. -/
def VM_GC_HeapInspection.collect (vm : VM) (w : World) : Bool × World :=
  if GCLocker.is_active w then
    (false, w)
  else
    (true, CollectedHeap.collect_as_vm_thread vm GCCause.heap_inspection w)

/-- Modelled from the spec: `MIN2` (globalDefinitions.hpp), used to "cap the
requested parallelism to the pool's maximum available workers". -/
def MIN2 (a b : Nat) : Nat :=
  if a < b then a else b

/-- Modelled from the spec: the scoped guard `WithActiveWorkers`
(workerThread.hpp), "a guard that captures the prior active-worker count on
acquisition and unconditionally restores it" (section 9). -/
structure WithActiveWorkers where
  prev_active_workers : Nat
  deriving DecidableEq, Repr

/-- Modelled from the spec: `WorkerThreads::set_active_workers` applied to the
pool the heap manager supplies. -/
def World.set_active_workers (w : World) (num_workers : Nat) : World :=
  { w with
    safepoint_workers :=
      w.safepoint_workers.map fun p => { p with active_workers := num_workers } }

/-- Modelled from the spec: the constructor of `WithActiveWorkers`, which
captures the prior count and "scope[s] the pool's active-worker count to that
capped value" (section 4.3 step 3). -/
def WithActiveWorkers.ctor (workers : WorkerThreads) (num_workers : Nat)
    (w : World) : WithActiveWorkers × World :=
  ({ prev_active_workers := workers.active_workers }, w.set_active_workers num_workers)

/-- Modelled from the spec: the destructor of `WithActiveWorkers`, "restoring
the prior count afterward" (section 4.3 step 3). -/
def WithActiveWorkers.dtor (g : WithActiveWorkers) (w : World) : World :=
  w.set_active_workers g.prev_active_workers

/-- Modelled from the spec: `HeapInspection::heap_inspection(out, workers)`,
which "produce[s] the object census" (section 4.3 step 4).  The event records
the active-worker count of the pool it was handed, `none` for `nullptr`. -/
def HeapInspection.heap_inspection (with_workers : Bool) (w : World) : World :=
  w.emit (Event.heap_inspection
    (if with_workers then w.safepoint_workers.map WorkerThreads.active_workers else none))

/-- The function `VM_GC_HeapInspection::doit`. -/
def VM_GC_HeapInspection.doit (vm : VM) (op : VM_GC_HeapInspection) (w : World) : World :=
  let w := CollectedHeap.ensure_parsability false w
  let w :=
    if op.full_gc then
      match VM_GC_HeapInspection.collect vm w with
      | (false, w) => w.log_line LogLine.gc_locker_held_pre_dump_gc_skipped
      | (true, w) => w
    else w
  match w.safepoint_workers with
  | some workers =>
    let capped_parallel_thread_num := MIN2 op.parallel_thread_num workers.max_workers
    let (with_active_workers, w) :=
      WithActiveWorkers.ctor workers capped_parallel_thread_num w
    let w := HeapInspection.heap_inspection true w
    with_active_workers.dtor w
  | none => HeapInspection.heap_inspection false w

/-! ## `VM_CollectForMetadataAllocation` -/

/-- The class `VM_CollectForMetadataAllocation`; `loader_data` identifies the
`ClassLoaderData` whose metaspace is asked. -/
structure VM_CollectForMetadataAllocation extends VM_GC_Operation where
  result : MetaWordPtr
  size : Nat
  mdtype : MetadataType
  loader_data : Nat
  deriving DecidableEq, Repr

/-- The constructor `VM_CollectForMetadataAllocation::VM_CollectForMetadataAllocation`
(`ctor`, as the type itself carries the class name).
The byte count handed to the allocation tracer is a `size_t` product, taken
modulo `2 ^ 64`. -/
def VM_CollectForMetadataAllocation.ctor (vm : VM)
    (loader_data : Nat) (size : Nat) (mdtype : MetadataType) (gc_count_before : Nat)
    (full_gc_count_before : Nat) (gc_cause : GCCause) (w : World) :
    Except Fatal (VM_CollectForMetadataAllocation × World) :=
  let op : VM_CollectForMetadataAllocation :=
    { toVM_GC_Operation :=
        VM_GC_Collect_Operation.ctor gc_count_before gc_cause
          full_gc_count_before true
      result := none
      size := size
      mdtype := mdtype
      loader_data := loader_data }
  if op.size = 0 then
    Except.error Fatal.assert_allocation_requested
  else
    Except.ok (op, w.emit
      (Event.send_allocation_requiring_gc_event ((op.size * vm.HeapWordSize) % 2 ^ 64)))

/-- Modelled from the spec: `ClassLoaderMetaspace::allocate(size, kind) -> handle?`
(section 6); the answer is the allocator's answer to this attempt. -/
def ClassLoaderMetaspace.allocate (vm : VM) (size : Nat) (mdtype : MetadataType)
    (w : World) : MetaWordPtr × World :=
  let res := vm.metaspace_answer w.metaspace_attempts
  (res, { w.emit (Event.allocate size mdtype res) with
          metaspace_attempts := w.metaspace_attempts + 1 })

/-- Modelled from the spec: `ClassLoaderMetaspace::expand_and_allocate`,
`expandAndAllocate(size, kind) -> handle?` of section 6. -/
def ClassLoaderMetaspace.expand_and_allocate (vm : VM) (size : Nat) (mdtype : MetadataType)
    (w : World) : MetaWordPtr × World :=
  let res := vm.metaspace_answer w.metaspace_attempts
  (res, { w.emit (Event.expand_and_allocate size mdtype res) with
          metaspace_attempts := w.metaspace_attempts + 1 })

/-- Modelled from the spec: `G1CollectedHeap::start_concurrent_gc_for_metadata_allocation`,
which "kick[s] off such a cycle asynchronously" (section 4.4 step 2). -/
def G1CollectedHeap.start_concurrent_gc_for_metadata_allocation (cause : GCCause)
    (w : World) : World :=
  w.emit (Event.start_concurrent_gc_for_metadata_allocation cause)

/-- The function `VM_CollectForMetadataAllocation::doit`.  The scoped objects
`SvcGCMarker` and `GCCauseSetter` act on state outside `World`. -/
def VM_CollectForMetadataAllocation.doit (vm : VM) (op : VM_CollectForMetadataAllocation)
    (w : World) : VM_CollectForMetadataAllocation × World := Id.run do
  let mut op := op
  let mut w := w
  -- Check again if the space is available.
  let (r, w1) := ClassLoaderMetaspace.allocate vm op.size op.mdtype w
  op := { op with result := r }
  w := w1
  if op.result != none then
    return (op, w)
  if vm.INCLUDE_G1GC then
    if vm.UseG1GC && vm.ClassUnloadingWithConcurrentMark then
      w := G1CollectedHeap.start_concurrent_gc_for_metadata_allocation op.gc_cause w
      -- For G1 expand since the collection is going to be concurrent.
      let (r, w1) := ClassLoaderMetaspace.expand_and_allocate vm op.size op.mdtype w
      op := { op with result := r }
      w := w1
      if op.result != none then
        return (op, w)
      w := w.log_line LogLine.g1_full_gc_for_metaspace
  -- Don't clear the soft refs yet.
  w := CollectedHeap.collect_as_vm_thread vm GCCause.metadata_GC_threshold w
  -- After a GC try to allocate without expanding.
  let (r, w1) := ClassLoaderMetaspace.allocate vm op.size op.mdtype w
  op := { op with result := r }
  w := w1
  if op.result != none then
    return (op, w)
  -- If still failing, allow the Metaspace to expand.
  let (r, w1) := ClassLoaderMetaspace.expand_and_allocate vm op.size op.mdtype w
  op := { op with result := r }
  w := w1
  if op.result != none then
    return (op, w)
  -- If expansion failed, do a collection clearing soft references.
  w := CollectedHeap.collect_as_vm_thread vm GCCause.metadata_GC_clear_soft_refs w
  let (r, w1) := ClassLoaderMetaspace.allocate vm op.size op.mdtype w
  op := { op with result := r }
  w := w1
  if op.result != none then
    return (op, w)
  w := w.log_line (LogLine.after_metaspace_gc_failed_to_allocate op.size)
  return (op, w)

/-! ## `VM_CollectForAllocation` -/

/-- The class `VM_CollectForAllocation`: the heap allocation-retry request. -/
structure VM_CollectForAllocation extends VM_GC_Operation where
  word_size : Nat
  result : Option Nat
  deriving DecidableEq, Repr

/-- The constructor `VM_CollectForAllocation::VM_CollectForAllocation`.  It
passes two arguments to `VM_GC_Collect_Operation`; the other two take the
default values declared in gcVMOperations.hpp, which are the parameters
`default_full_gc_count_before` and `default_full` here. -/
def VM_CollectForAllocation.ctor (vm : VM) (default_full_gc_count_before : Nat)
    (default_full : Bool) (word_size : Nat) (gc_count_before : Nat) (cause : GCCause)
    (w : World) : VM_CollectForAllocation × World :=
  let op : VM_CollectForAllocation :=
    { toVM_GC_Operation :=
        VM_GC_Collect_Operation.ctor gc_count_before cause default_full_gc_count_before
          default_full
      word_size := word_size
      result := none }
  -- Only report if operation was really caused by an allocation.
  if op.word_size != 0 then
    (op, w.emit
      (Event.send_allocation_requiring_gc_event ((op.word_size * vm.HeapWordSize) % 2 ^ 64)))
  else
    (op, w)

/-! ## The executor's three-phase protocol -/

/-- Modelled from the spec: the pause-point executor (vmThread.cpp) runs the
"three-phase hook" `prologue() -> bool`, `action()`, `epilogue()` "in that
order" (section 6); "an operation whose prologue reports failure never runs its
action phase" (section 3, invariant b) and "the skip path performs its own
release and never invokes the shared epilogue a second time" (section 4.2).
The action phase `doit` is the concrete operation's. -/
def VMThread.execute (vm : VM) (skip : VM_GC_Operation → World → Bool)
    (doit : VM_GC_Operation → World → World) (op : VM_GC_Operation) (w : World) :
    Except Fatal (Bool × VM_GC_Operation × World) :=
  match VM_GC_Operation.doit_prologue vm skip op w with
  | Except.error f => Except.error f
  | Except.ok (b, op, w) =>
    if b then Except.ok (b, op, VM_GC_Operation.doit_epilogue vm (doit op w))
    else Except.ok (b, op, w)

/-- Modelled from the spec: the other reading of the executor, in which "the
epilogue always runs exactly once per operation that ran prologue, regardless
of prologue outcome" (section 3, invariant c; section 6). -/
def VMThread.execute_epilogue_always (vm : VM) (skip : VM_GC_Operation → World → Bool)
    (doit : VM_GC_Operation → World → World) (op : VM_GC_Operation) (w : World) :
    Except Fatal (Bool × VM_GC_Operation × World) :=
  match VM_GC_Operation.doit_prologue vm skip op w with
  | Except.error f => Except.error f
  | Except.ok (b, op, w) =>
    let w := if b then doit op w else w
    Except.ok (b, op, VM_GC_Operation.doit_epilogue vm w)

/-- Modelled from the spec: the executor is "strictly sequential across
operations it runs" (section 5): the operations of a queue are executed one
after another; the list returned holds what each prologue returned. -/
def VMThread.execute_all (vm : VM) (doit : VM_GC_Operation → World → World) :
    List VM_GC_Operation → World → Except Fatal (List Bool × World)
  | [], w => Except.ok ([], w)
  | op :: ops, w =>
    match VMThread.execute vm VM_GC_Operation.skip_operation doit op w with
    | Except.error f => Except.error f
    | Except.ok (b, _, w) =>
      match VMThread.execute_all vm doit ops w with
      | Except.error f => Except.error f
      | Except.ok (bs, w) => Except.ok (b :: bs, w)

/-! ## Vocabulary of the properties -/

/-- The calls on the heap lock and on the GC locker. -/
def Event.is_sync : Event → Bool
  | Event.GCLocker_block => true
  | Event.GCLocker_unblock => true
  | Event.Heap_lock_lock => true
  | Event.Heap_lock_unlock => true
  | _ => false

/-- The heap-lock and GC-locker calls made so far, in order. -/
def World.sync_calls (w : World) : List Event :=
  w.trace.filter Event.is_sync

/-- The heap-lock and GC-locker calls made between the world `w` and the later
world `w1`. -/
def World.sync_calls_since (w w1 : World) : List Event :=
  w1.sync_calls.drop w.sync_calls.length

/-- Walks a sequence of calls, starting with the heap lock held or not: `true`
when every `unlock` in it finds the lock held. -/
def lock_discipline : Bool → List Event → Bool
  | _, [] => true
  | _, Event.Heap_lock_lock :: es => lock_discipline true es
  | held, Event.Heap_lock_unlock :: es => held && lock_discipline false es
  | held, _ :: es => lock_discipline held es

/-- The causes of the collections requested through `collect_as_vm_thread`, in
order. -/
def collections_requested : List Event → List GCCause
  | [] => []
  | Event.collect_as_vm_thread c :: es => c :: collections_requested es
  | _ :: es => collections_requested es

/-- One rung of the metadata escalation as the spec words it (section 4.4): the
calls of the step, then the allocation attempt "immediately after the step",
plain or "with space expansion permitted". -/
structure Rung where
  step : List Event
  expansion_permitted : Bool
  deriving DecidableEq, Repr

/-- The escalating sequence of section 4.4, steps 1 to 5, for a request of the
given cause; step 2 is present only for G1 with concurrent class unloading. -/
def escalation (vm : VM) (cause : GCCause) : List Rung :=
  [⟨[], false⟩] ++
  (if vm.INCLUDE_G1GC && (vm.UseG1GC && vm.ClassUnloadingWithConcurrentMark) then
    [⟨[Event.start_concurrent_gc_for_metadata_allocation cause], true⟩]
   else []) ++
  [⟨[Event.collect_as_vm_thread GCCause.metadata_GC_threshold], false⟩,
   ⟨[], true⟩,
   ⟨[Event.collect_as_vm_thread GCCause.metadata_GC_clear_soft_refs], false⟩]

/-- The calls made when the given rungs are all climbed, the attempts being
numbered from `k` and answered by `answer`. -/
def climbed (answer : Nat → MetaWordPtr) (size : Nat) (mdtype : MetadataType) :
    Nat → List Rung → List Event
  | _, [] => []
  | k, r :: rs =>
    r.step ++
    [if r.expansion_permitted then Event.expand_and_allocate size mdtype (answer k)
     else Event.allocate size mdtype (answer k)] ++
    climbed answer size mdtype (k + 1) rs

/-! ## Concrete inputs -/

/-- A VM with one collector selected (and G1 built in, class unloading with
concurrent mark on, initialisation completed), a heap manager that counts each
requested collection as a full one, and the given metaspace answers. -/
def sample_vm (serial parallel g1 zgc shenandoah : Bool) (answer : Nat → MetaWordPtr) : VM :=
  { UseSerialGC := serial
    UseParallelGC := parallel
    UseG1GC := g1
    UseZGC := zgc
    UseShenandoahGC := shenandoah
    ClassUnloadingWithConcurrentMark := true
    INCLUDE_G1GC := true
    init_completed := true
    HeapWordSize := 8
    metaspace_answer := answer
    collected := fun _ c => (c.1 + 1, c.2 + 1) }

/-- Serial GC; the metaspace never has room. -/
def serial_vm : VM := sample_vm true false false false false fun _ => none

/-- ZGC; the metaspace never has room. -/
def zgc_vm : VM := sample_vm false false false true false fun _ => none

/-- The answers of an allocator that fails four times and then hands out
address 4096. -/
def fifth_time_lucky (k : Nat) : MetaWordPtr :=
  if k = 4 then some 4096 else none

/-- A quiet world with the given counter values: nothing held, nothing
blocked, no critical section, a pool of the given size, empty trace. -/
def idle_world (total full : Nat) (pool : Option WorkerThreads) : World :=
  { total_collections := total
    total_full_collections := full
    heap_lock_held := false
    gc_request_pending := false
    gclocker_active := false
    has_reference_pending_list := false
    safepoint_workers := pool
    metaspace_attempts := 0
    trace := []
    log := [] }

/-- A heap-inspection request with `full_gc` set, for the given number of
threads; the counter snapshots of an inspection are dummies. -/
def full_inspection (threads : Nat) : VM_GC_HeapInspection :=
  { gc_count_before := 0
    full_gc_count_before := 0
    full := true
    prologue_succeeded := false
    gc_cause := GCCause.heap_inspection
    full_gc := true
    parallel_thread_num := threads }

/-- An action phase that completes one collection of the kind requested. -/
def collecting_action (op : VM_GC_Operation) (w : World) : World :=
  w.complete_collection op.full

/-! ## Lemmas on the counters -/

theorem complete_collections_total (kinds : List Bool) (w : World) :
    (w.complete_collections kinds).total_collections = w.total_collections + kinds.length := by
  induction kinds generalizing w with
  | nil => simp [World.complete_collections]
  | cons k ks ih =>
    have h := ih (w.complete_collection k)
    simp only [World.complete_collections, List.foldl_cons, List.length_cons] at h ⊢
    rw [h]
    simp [World.complete_collection]
    omega

theorem complete_collections_full (kinds : List Bool) (w : World) :
    (w.complete_collections kinds).total_full_collections
      = w.total_full_collections + kinds.count true := by
  induction kinds generalizing w with
  | nil => simp [World.complete_collections]
  | cons k ks ih =>
    have h := ih (w.complete_collection k)
    simp only [World.complete_collections, List.foldl_cons] at h ⊢
    rw [h]
    cases k <;> simp [World.complete_collection, List.count_cons]
    omega

/-! ## Lemmas on the shared prologue -/

/-- The world in which the shared prologue evaluates `skip_operation`: the GC
locker blocked when the collector uses it, the heap lock taken. -/
theorem entered_counters (vm : VM) (w : World) :
    (Heap_lock.lock (if should_use_gclocker vm then GCLocker.block w else w)).total_collections
        = w.total_collections ∧
    (Heap_lock.lock (if should_use_gclocker vm then GCLocker.block w else w)).total_full_collections
        = w.total_full_collections := by
  cases should_use_gclocker vm <;> simp [Heap_lock.lock, GCLocker.block, World.emit]

theorem skip_operation_entered (vm : VM) (op : VM_GC_Operation) (w : World) :
    VM_GC_Operation.skip_operation op
        (Heap_lock.lock (if should_use_gclocker vm then GCLocker.block w else w))
      = VM_GC_Operation.skip_operation op w := by
  simp only [VM_GC_Operation.skip_operation, (entered_counters vm w).1, (entered_counters vm w).2]

theorem doit_prologue_fresh (vm : VM) (skip : VM_GC_Operation → World → Bool)
    (op : VM_GC_Operation) (w : World)
    (hinit : vm.init_completed = true) (hcause : op.gc_cause ≠ GCCause.no_gc)
    (hskip : skip op (Heap_lock.lock
      (if should_use_gclocker vm then GCLocker.block w else w)) = false) :
    VM_GC_Operation.doit_prologue vm skip op w
      = Except.ok (true, { op with prologue_succeeded := true },
          (Heap_lock.lock (if should_use_gclocker vm then GCLocker.block w else w)).emit
            (Event.skip_operation false)) := by
  simp [VM_GC_Operation.doit_prologue, hcause, hinit, VM_Heap_Sync_Operation.doit_prologue, hskip]

theorem doit_prologue_stale (vm : VM) (skip : VM_GC_Operation → World → Bool)
    (op : VM_GC_Operation) (w : World)
    (hinit : vm.init_completed = true) (hcause : op.gc_cause ≠ GCCause.no_gc)
    (hskip : skip op (Heap_lock.lock
      (if should_use_gclocker vm then GCLocker.block w else w)) = true) :
    VM_GC_Operation.doit_prologue vm skip op w
      = Except.ok (false, { op with prologue_succeeded := false },
          (if should_use_gclocker vm then
            GCLocker.unblock (Heap_lock.unlock
              ((Heap_lock.lock (if should_use_gclocker vm then GCLocker.block w else w)).emit
                (Event.skip_operation true)))
           else
            Heap_lock.unlock
              ((Heap_lock.lock (if should_use_gclocker vm then GCLocker.block w else w)).emit
                (Event.skip_operation true)))) := by
  simp [VM_GC_Operation.doit_prologue, hcause, hinit, VM_Heap_Sync_Operation.doit_prologue, hskip]

/-! ## The staleness decision -/

/-- C2: for every operation whose snapshots were taken in `w0` and every series
`kinds` of collections completed since (full ones marked `true`), with VM
initialisation completed, `VM_GC_Operation::doit_prologue` returns normally, the
value returned equals the stored `prologue_succeeded`, and that value is `false`
exactly when the relevant counter differs from its snapshot: the full-collection
counter for a full request, the collection counter otherwise. -/
theorem doit_prologue_staleness (vm : VM) (op : VM_GC_Operation) (w0 : World)
    (kinds : List Bool)
    (hinit : vm.init_completed = true) (hcause : op.gc_cause ≠ GCCause.no_gc)
    (hcount : w0.total_collections = op.gc_count_before)
    (hfull : w0.total_full_collections = op.full_gc_count_before) :
    ∃ (w1 : World) (stale : Bool),
      VM_GC_Operation.doit_prologue vm VM_GC_Operation.skip_operation op
          (w0.complete_collections kinds)
        = Except.ok (!stale, { op with prologue_succeeded := !stale }, w1) ∧
      (stale = true ↔
        if op.full = true then
          (w0.complete_collections kinds).total_full_collections ≠ op.full_gc_count_before
        else (w0.complete_collections kinds).total_collections ≠ op.gc_count_before) := by
  have ht := complete_collections_total kinds w0
  have hf := complete_collections_full kinds w0
  have hle : kinds.count true ≤ kinds.length := List.count_le_length _ _
  have hent := skip_operation_entered vm op (w0.complete_collections kinds)
  cases hs : VM_GC_Operation.skip_operation op (w0.complete_collections kinds)
  · have h1 := doit_prologue_fresh vm _ op _ hinit hcause (hent.trans hs)
    have h2 : (false = true ↔
        if op.full = true then
          (w0.complete_collections kinds).total_full_collections ≠ op.full_gc_count_before
        else (w0.complete_collections kinds).total_collections ≠ op.gc_count_before) := by
      simp only [VM_GC_Operation.skip_operation] at hs
      cases hfl : op.full <;> simp [hfl] at hs ⊢ <;> omega
    exact ⟨_, false, h1, h2⟩
  · have h1 := doit_prologue_stale vm _ op _ hinit hcause (hent.trans hs)
    have h2 : (true = true ↔
        if op.full = true then
          (w0.complete_collections kinds).total_full_collections ≠ op.full_gc_count_before
        else (w0.complete_collections kinds).total_collections ≠ op.gc_count_before) := by
      simp only [VM_GC_Operation.skip_operation] at hs
      cases hfl : op.full <;> simp [hfl] at hs ⊢ <;> omega
    exact ⟨_, true, h1, h2⟩

theorem doit_prologue_staleness_witness :
    serial_vm.init_completed = true ∧
    (⟨5, 2, true, false, GCCause.allocation_failure⟩ : VM_GC_Operation).gc_cause
      ≠ GCCause.no_gc ∧
    (idle_world 5 2 none).total_collections = 5 ∧
    (idle_world 5 2 none).total_full_collections = 2 ∧
    ∃ (w1 : World) (stale : Bool),
      VM_GC_Operation.doit_prologue serial_vm VM_GC_Operation.skip_operation
          ⟨5, 2, true, false, GCCause.allocation_failure⟩
          ((idle_world 5 2 none).complete_collections [false, true])
        = Except.ok (!stale,
            { (⟨5, 2, true, false, GCCause.allocation_failure⟩ : VM_GC_Operation) with
              prologue_succeeded := !stale }, w1) ∧
      (stale = true ↔
        if (⟨5, 2, true, false, GCCause.allocation_failure⟩ : VM_GC_Operation).full = true then
          ((idle_world 5 2 none).complete_collections [false, true]).total_full_collections ≠ 2
        else ((idle_world 5 2 none).complete_collections [false, true]).total_collections ≠ 5) :=
  ⟨rfl, by decide, rfl, rfl,
    doit_prologue_staleness serial_vm ⟨5, 2, true, false, GCCause.allocation_failure⟩
      (idle_world 5 2 none) [false, true] rfl (by decide) rfl rfl⟩

/-! ## Heap inspection -/

theorem MIN2_eq_min (a b : Nat) : MIN2 a b = min a b := by
  unfold MIN2
  split <;> omega

theorem collections_requested_append (xs ys : List Event) :
    collections_requested (xs ++ ys) = collections_requested xs ++ collections_requested ys := by
  induction xs with
  | nil => rfl
  | cons e es ih => cases e <;> simp [collections_requested, ih]

/-- C7: for every heap-inspection operation (VM initialised, a real cause),
`VM_GC_HeapInspection::doit_prologue` returns `true` with `prologue_succeeded`
set and the heap lock held, whatever the counters and snapshots are, and the
calls it makes are, in this order: a `collect(heap_inspection)` exactly when
`full_gc` is set and the collector is ZGC or Shenandoah, the GC-locker block
when the collector uses the GC locker, the heap-lock acquisition, the staleness
check, which answers "not stale". -/
theorem heap_inspection_prologue_order (vm : VM) (op : VM_GC_HeapInspection) (w : World)
    (hinit : vm.init_completed = true) (hcause : op.gc_cause ≠ GCCause.no_gc) :
    ∃ w1 : World,
      VM_GC_HeapInspection.doit_prologue vm op w
        = Except.ok (true, { op with prologue_succeeded := true }, w1) ∧
      w1.trace = w.trace ++
        (if op.full_gc && (vm.UseZGC || vm.UseShenandoahGC) then
          [Event.collect GCCause.heap_inspection] else []) ++
        (if should_use_gclocker vm then [Event.GCLocker_block] else []) ++
        [Event.Heap_lock_lock, Event.skip_operation false] ∧
      w1.heap_lock_held = true := by
  have h := doit_prologue_fresh vm (fun _ x => VM_GC_HeapInspection.skip_operation op x)
    op.toVM_GC_Operation
    (if op.full_gc && (vm.UseZGC || vm.UseShenandoahGC) then
      CollectedHeap.collect vm GCCause.heap_inspection w else w) hinit hcause rfl
  simp only [VM_GC_HeapInspection.doit_prologue, h]
  exact ⟨_, rfl,
    by
      cases op.full_gc && (vm.UseZGC || vm.UseShenandoahGC) <;>
        cases should_use_gclocker vm <;>
        simp [World.emit, Heap_lock.lock, GCLocker.block, CollectedHeap.collect],
    by simp [World.emit, Heap_lock.lock]⟩

theorem heap_inspection_prologue_order_witness :
    zgc_vm.init_completed = true ∧
    (full_inspection 4).gc_cause ≠ GCCause.no_gc ∧
    ∃ w1 : World,
      VM_GC_HeapInspection.doit_prologue zgc_vm (full_inspection 4) (idle_world 7 3 none)
        = Except.ok (true, { full_inspection 4 with prologue_succeeded := true }, w1) ∧
      w1.trace = (idle_world 7 3 none).trace ++
        (if (full_inspection 4).full_gc && (zgc_vm.UseZGC || zgc_vm.UseShenandoahGC) then
          [Event.collect GCCause.heap_inspection] else []) ++
        (if should_use_gclocker zgc_vm then [Event.GCLocker_block] else []) ++
        [Event.Heap_lock_lock, Event.skip_operation false] ∧
      w1.heap_lock_held = true :=
  ⟨rfl, by decide,
    heap_inspection_prologue_order zgc_vm (full_inspection 4) (idle_world 7 3 none) rfl
      (by decide)⟩

theorem heap_inspection_doit_trace (vm : VM) (op : VM_GC_HeapInspection) (w : World) :
    (VM_GC_HeapInspection.doit vm op w).trace = w.trace ++
      [Event.ensure_parsability false] ++
      (if op.full_gc && !GCLocker.is_active w then
        [Event.collect_as_vm_thread GCCause.heap_inspection] else []) ++
      [Event.heap_inspection
        (w.safepoint_workers.map fun p => MIN2 op.parallel_thread_num p.max_workers)] := by
  cases hp : w.safepoint_workers <;> cases hf : op.full_gc <;> cases ha : w.gclocker_active <;>
    simp [VM_GC_HeapInspection.doit, VM_GC_HeapInspection.collect, GCLocker.is_active,
      CollectedHeap.ensure_parsability, CollectedHeap.collect_as_vm_thread,
      HeapInspection.heap_inspection, WithActiveWorkers.ctor, WithActiveWorkers.dtor,
      World.set_active_workers, World.emit, World.log_line, hp, hf, ha]

theorem heap_inspection_doit_workers (vm : VM) (op : VM_GC_HeapInspection) (w : World) :
    (VM_GC_HeapInspection.doit vm op w).safepoint_workers = w.safepoint_workers := by
  cases hp : w.safepoint_workers <;> cases hf : op.full_gc <;> cases ha : w.gclocker_active <;>
    simp [VM_GC_HeapInspection.doit, VM_GC_HeapInspection.collect, GCLocker.is_active,
      CollectedHeap.ensure_parsability, CollectedHeap.collect_as_vm_thread,
      HeapInspection.heap_inspection, WithActiveWorkers.ctor, WithActiveWorkers.dtor,
      World.set_active_workers, World.emit, World.log_line, hp, hf, ha]

theorem heap_inspection_doit_frame (vm : VM) (op : VM_GC_HeapInspection) (w : World) :
    (VM_GC_HeapInspection.doit vm op w).heap_lock_held = w.heap_lock_held ∧
    (VM_GC_HeapInspection.doit vm op w).gc_request_pending = w.gc_request_pending ∧
    (VM_GC_HeapInspection.doit vm op w).sync_calls = w.sync_calls := by
  refine ⟨?_, ?_, ?_⟩
  · cases hp : w.safepoint_workers <;> cases hf : op.full_gc <;> cases ha : w.gclocker_active <;>
      simp [VM_GC_HeapInspection.doit, VM_GC_HeapInspection.collect, GCLocker.is_active,
        CollectedHeap.ensure_parsability, CollectedHeap.collect_as_vm_thread,
        HeapInspection.heap_inspection, WithActiveWorkers.ctor, WithActiveWorkers.dtor,
        World.set_active_workers, World.emit, World.log_line, hp, hf, ha]
  · cases hp : w.safepoint_workers <;> cases hf : op.full_gc <;> cases ha : w.gclocker_active <;>
      simp [VM_GC_HeapInspection.doit, VM_GC_HeapInspection.collect, GCLocker.is_active,
        CollectedHeap.ensure_parsability, CollectedHeap.collect_as_vm_thread,
        HeapInspection.heap_inspection, WithActiveWorkers.ctor, WithActiveWorkers.dtor,
        World.set_active_workers, World.emit, World.log_line, hp, hf, ha]
  · simp only [World.sync_calls, heap_inspection_doit_trace]
    cases op.full_gc <;> cases GCLocker.is_active w <;>
      simp [List.filter_append, Event.is_sync]

/-- C8, counterexample: under ZGC, an inspection with `full_gc` set.  Its
prologue performs the pre-collection (`collect(heap_inspection)` is in the
trace), the GC locker is not active, and the action phase run next still calls
`collect_as_vm_thread(heap_inspection)`: the condition "requested, not already
performed by the prologue, GC locker not active" is false and the call is made. -/
theorem heap_inspection_collects_after_workaround :
    ((VM_GC_HeapInspection.doit_prologue zgc_vm (full_inspection 4)
        (idle_world 7 3 none)).toOption.map fun r => (r.1, r.2.2.trace))
      = some (true, [Event.collect GCCause.heap_inspection, Event.Heap_lock_lock,
          Event.skip_operation false]) ∧
    ((VM_GC_HeapInspection.doit_prologue zgc_vm (full_inspection 4)
        (idle_world 7 3 none)).toOption.map fun r =>
          (VM_GC_HeapInspection.doit zgc_vm r.2.1 r.2.2).trace)
      = some [Event.collect GCCause.heap_inspection, Event.Heap_lock_lock,
          Event.skip_operation false, Event.ensure_parsability false,
          Event.collect_as_vm_thread GCCause.heap_inspection, Event.heap_inspection none] ∧
    ((full_inspection 4).full_gc &&
      !((full_inspection 4).full_gc && (zgc_vm.UseZGC || zgc_vm.UseShenandoahGC)) &&
      !GCLocker.is_active (idle_world 7 3 none)) = false := by
  refine ⟨by rfl, by rfl, by rfl⟩

/-- C8, amended: for every heap-inspection operation,
`VM_GC_HeapInspection::doit` calls `collect_as_vm_thread(heap_inspection)` if and
only if a full collection was requested and the GC locker is not active, whether
or not the prologue has collected already; the heap is made parsable first and
the census is produced last in every case. -/
theorem heap_inspection_collects_when_due (vm : VM) (op : VM_GC_HeapInspection) (w : World) :
    collections_requested (VM_GC_HeapInspection.doit vm op w).trace
      = collections_requested w.trace ++
        (if op.full_gc = true ∧ GCLocker.is_active w = false then [GCCause.heap_inspection]
         else []) ∧
    ∃ census : Option Nat,
      (VM_GC_HeapInspection.doit vm op w).trace = w.trace ++
        [Event.ensure_parsability false] ++
        (if op.full_gc = true ∧ GCLocker.is_active w = false then
          [Event.collect_as_vm_thread GCCause.heap_inspection] else []) ++
        [Event.heap_inspection census] := by
  rw [heap_inspection_doit_trace]
  constructor
  · simp only [collections_requested_append]
    cases op.full_gc <;> cases GCLocker.is_active w <;> simp [collections_requested]
  · exact ⟨w.safepoint_workers.map fun p => MIN2 op.parallel_thread_num p.max_workers, by
      cases op.full_gc <;> cases GCLocker.is_active w <;> simp⟩

/-- C9: for every requested thread count `p` and every pool with maximum `m` and
prior active count `a`, `VM_GC_HeapInspection::doit` runs the traversal (its last
call) with `min p m` active workers and leaves the pool with maximum `m` and
active count `a`; when no pool is supplied the traversal runs without a pool. -/
theorem heap_inspection_caps_parallelism (vm : VM) (op : VM_GC_HeapInspection) (w : World)
    (m a : Nat) :
    (VM_GC_HeapInspection.doit vm op { w with safepoint_workers := some ⟨m, a⟩ }).trace.getLast?
      = some (Event.heap_inspection (some (min op.parallel_thread_num m))) ∧
    (VM_GC_HeapInspection.doit vm op { w with safepoint_workers := some ⟨m, a⟩ }).safepoint_workers
      = some ⟨m, a⟩ ∧
    (VM_GC_HeapInspection.doit vm op { w with safepoint_workers := none }).trace.getLast?
      = some (Event.heap_inspection none) ∧
    (VM_GC_HeapInspection.doit vm op { w with safepoint_workers := none }).safepoint_workers
      = none := by
  refine ⟨?_, ?_, ?_, ?_⟩
  · rw [heap_inspection_doit_trace, List.getLast?_concat]
    simp [MIN2_eq_min]
  · rw [heap_inspection_doit_workers]
  · rw [heap_inspection_doit_trace, List.getLast?_concat]
    simp
  · rw [heap_inspection_doit_workers]

theorem heap_inspection_caps_parallelism_witness :
    (VM_GC_HeapInspection.doit serial_vm (full_inspection 64)
        (idle_world 7 3 (some ⟨8, 3⟩))).trace.getLast?
      = some (Event.heap_inspection (some 8)) ∧
    (VM_GC_HeapInspection.doit serial_vm (full_inspection 64)
        (idle_world 7 3 (some ⟨8, 3⟩))).safepoint_workers
      = some ⟨8, 3⟩ :=
  ⟨(heap_inspection_caps_parallelism serial_vm (full_inspection 64) (idle_world 7 3 none)
      8 3).1,
   (heap_inspection_caps_parallelism serial_vm (full_inspection 64) (idle_world 7 3 none)
      8 3).2.1⟩

/-! ## Lock and GC-locker balance -/

theorem sync_calls_emit (w : World) (e : Event) :
    (w.emit e).sync_calls = w.sync_calls ++ (if e.is_sync then [e] else []) := by
  cases h : e.is_sync <;> simp [World.emit, World.sync_calls, List.filter_append, h]

theorem sync_calls_since_append (w w1 : World) (new : List Event)
    (h : w1.sync_calls = w.sync_calls ++ new) : w.sync_calls_since w1 = new := by
  simp [World.sync_calls_since, h]

/-- The world in which the action phase starts after a successful prologue. -/
theorem fresh_world_sync (vm : VM) (w : World) :
    ((Heap_lock.lock (if should_use_gclocker vm then GCLocker.block w else w)).emit
        (Event.skip_operation false)).sync_calls
      = w.sync_calls ++ ((if should_use_gclocker vm then [Event.GCLocker_block] else []) ++
        [Event.Heap_lock_lock]) := by
  cases should_use_gclocker vm <;>
    simp [World.sync_calls, World.emit, Heap_lock.lock, GCLocker.block, List.filter_append,
      Event.is_sync]

theorem epilogue_sync (vm : VM) (w : World) :
    (VM_GC_Operation.doit_epilogue vm w).sync_calls
      = w.sync_calls ++ ([Event.Heap_lock_unlock] ++
        (if should_use_gclocker vm then [Event.GCLocker_unblock] else [])) := by
  cases hg : should_use_gclocker vm <;> cases hr : w.has_reference_pending_list <;>
    simp [VM_GC_Operation.doit_epilogue, VM_Heap_Sync_Operation.doit_epilogue,
      OopMapCache.try_trigger_cleanup, Heap_lock.notify_all, World.sync_calls, World.emit,
      Heap_lock.unlock, GCLocker.unblock, List.filter_append, Event.is_sync, *]

theorem epilogue_state (vm : VM) (w : World) :
    (VM_GC_Operation.doit_epilogue vm w).heap_lock_held = false ∧
    (VM_GC_Operation.doit_epilogue vm w).gc_request_pending
      = (if should_use_gclocker vm then false else w.gc_request_pending) := by
  cases hg : should_use_gclocker vm <;> cases hr : w.has_reference_pending_list <;>
    simp [VM_GC_Operation.doit_epilogue, VM_Heap_Sync_Operation.doit_epilogue,
      OopMapCache.try_trigger_cleanup, Heap_lock.notify_all, World.emit,
      Heap_lock.unlock, GCLocker.unblock, *]

/-- The world a skipped prologue leaves behind. -/
theorem stale_world_sync (vm : VM) (w : World) :
    (if should_use_gclocker vm then
        GCLocker.unblock (Heap_lock.unlock
          ((Heap_lock.lock (if should_use_gclocker vm then GCLocker.block w else w)).emit
            (Event.skip_operation true)))
      else
        Heap_lock.unlock
          ((Heap_lock.lock (if should_use_gclocker vm then GCLocker.block w else w)).emit
            (Event.skip_operation true))).sync_calls
      = w.sync_calls ++ ((if should_use_gclocker vm then [Event.GCLocker_block] else []) ++
        [Event.Heap_lock_lock, Event.Heap_lock_unlock] ++
        (if should_use_gclocker vm then [Event.GCLocker_unblock] else [])) := by
  cases should_use_gclocker vm <;>
    simp [World.sync_calls, World.emit, Heap_lock.lock, Heap_lock.unlock, GCLocker.block,
      GCLocker.unblock, List.filter_append, Event.is_sync]

theorem stale_world_state (vm : VM) (w : World) :
    (if should_use_gclocker vm then
        GCLocker.unblock (Heap_lock.unlock
          ((Heap_lock.lock (if should_use_gclocker vm then GCLocker.block w else w)).emit
            (Event.skip_operation true)))
      else
        Heap_lock.unlock
          ((Heap_lock.lock (if should_use_gclocker vm then GCLocker.block w else w)).emit
            (Event.skip_operation true))).heap_lock_held = false ∧
    (if should_use_gclocker vm then
        GCLocker.unblock (Heap_lock.unlock
          ((Heap_lock.lock (if should_use_gclocker vm then GCLocker.block w else w)).emit
            (Event.skip_operation true)))
      else
        Heap_lock.unlock
          ((Heap_lock.lock (if should_use_gclocker vm then GCLocker.block w else w)).emit
            (Event.skip_operation true))).gc_request_pending
      = (if should_use_gclocker vm then false else w.gc_request_pending) := by
  cases should_use_gclocker vm <;>
    simp [World.emit, Heap_lock.lock, Heap_lock.unlock, GCLocker.block, GCLocker.unblock]

/-- C3: for every operation, collector selection and counter state (VM
initialised, a real cause, heap lock free and GC locker unblocked beforehand),
when the executor runs the prologue and then, only if it returned `true`, an
action phase that leaves the heap lock and the GC locker alone and the epilogue,
the run returns and the heap-lock and GC-locker calls made are: one `block` when
the collector is Serial or Parallel, one `lock`, one `unlock`, one `unblock`
when the collector is Serial or Parallel - on the skip path as on the full run -
and the heap lock state and the blocked state are what they were before. -/
theorem no_leaked_block_or_lock (vm : VM) (skip : VM_GC_Operation → World → Bool)
    (doit : VM_GC_Operation → World → World) (op : VM_GC_Operation) (w : World)
    (hinit : vm.init_completed = true) (hcause : op.gc_cause ≠ GCCause.no_gc)
    (hact : ∀ o x, (doit o x).heap_lock_held = x.heap_lock_held ∧
      (doit o x).gc_request_pending = x.gc_request_pending ∧
      (doit o x).sync_calls = x.sync_calls)
    (hlock : w.heap_lock_held = false) (hblocked : w.gc_request_pending = false) :
    ∃ (b : Bool) (op1 : VM_GC_Operation) (w1 : World),
      VMThread.execute vm skip doit op w = Except.ok (b, op1, w1) ∧
      w.sync_calls_since w1
        = (if should_use_gclocker vm then [Event.GCLocker_block] else []) ++
          [Event.Heap_lock_lock, Event.Heap_lock_unlock] ++
          (if should_use_gclocker vm then [Event.GCLocker_unblock] else []) ∧
      (w.sync_calls_since w1).count Event.GCLocker_block
        = (if vm.UseSerialGC = true ∨ vm.UseParallelGC = true then 1 else 0) ∧
      (w.sync_calls_since w1).count Event.GCLocker_unblock
        = (w.sync_calls_since w1).count Event.GCLocker_block ∧
      (w.sync_calls_since w1).count Event.Heap_lock_lock = 1 ∧
      (w.sync_calls_since w1).count Event.Heap_lock_unlock = 1 ∧
      lock_discipline w.heap_lock_held (w.sync_calls_since w1) = true ∧
      w1.heap_lock_held = w.heap_lock_held ∧
      w1.gc_request_pending = w.gc_request_pending := by
  cases hs : skip op (Heap_lock.lock (if should_use_gclocker vm then GCLocker.block w else w))
  · have hp := doit_prologue_fresh vm skip op w hinit hcause hs
    have hsync := sync_calls_since_append w
      (VM_GC_Operation.doit_epilogue vm (doit { op with prologue_succeeded := true }
        ((Heap_lock.lock (if should_use_gclocker vm then GCLocker.block w else w)).emit
          (Event.skip_operation false))))
      ((if should_use_gclocker vm then [Event.GCLocker_block] else []) ++
        [Event.Heap_lock_lock, Event.Heap_lock_unlock] ++
        (if should_use_gclocker vm then [Event.GCLocker_unblock] else []))
      (by rw [epilogue_sync, (hact _ _).2.2, fresh_world_sync]; simp)
    have hstate := epilogue_state vm (doit { op with prologue_succeeded := true }
        ((Heap_lock.lock (if should_use_gclocker vm then GCLocker.block w else w)).emit
          (Event.skip_operation false)))
    refine ⟨true, _, _, by simp only [VMThread.execute, hp]; rfl, ?_⟩
    rw [hsync, hstate.1, hstate.2, (hact _ _).2.1, hlock, hblocked]
    cases hg : should_use_gclocker vm <;>
      simp [should_use_gclocker] at hg <;>
      simp [hg, lock_discipline, World.emit, Heap_lock.lock, GCLocker.block, hblocked]
  · have hp := doit_prologue_stale vm skip op w hinit hcause hs
    have hsync := sync_calls_since_append w _ _ (stale_world_sync vm w)
    have hstate := stale_world_state vm w
    refine ⟨false, _, _, by simp only [VMThread.execute, hp]; rfl, ?_⟩
    rw [hsync, hstate.1, hstate.2, hlock, hblocked]
    cases hg : should_use_gclocker vm <;>
      simp [should_use_gclocker] at hg <;>
      simp [hg, lock_discipline]

theorem no_leaked_block_or_lock_witness :
    serial_vm.init_completed = true ∧
    (full_inspection 4).gc_cause ≠ GCCause.no_gc ∧
    (idle_world 5 2 none).heap_lock_held = false ∧
    (idle_world 5 2 none).gc_request_pending = false ∧
    ∃ (b : Bool) (op1 : VM_GC_Operation) (w1 : World),
      VMThread.execute serial_vm
        (fun _ x => VM_GC_HeapInspection.skip_operation (full_inspection 4) x)
        (fun _ x => VM_GC_HeapInspection.doit serial_vm (full_inspection 4) x)
        (full_inspection 4).toVM_GC_Operation (idle_world 5 2 none)
        = Except.ok (b, op1, w1) ∧
      (idle_world 5 2 none).sync_calls_since w1
        = (if should_use_gclocker serial_vm then [Event.GCLocker_block] else []) ++
          [Event.Heap_lock_lock, Event.Heap_lock_unlock] ++
          (if should_use_gclocker serial_vm then [Event.GCLocker_unblock] else []) ∧
      ((idle_world 5 2 none).sync_calls_since w1).count Event.GCLocker_block
        = (if serial_vm.UseSerialGC = true ∨ serial_vm.UseParallelGC = true then 1 else 0) ∧
      ((idle_world 5 2 none).sync_calls_since w1).count Event.GCLocker_unblock
        = ((idle_world 5 2 none).sync_calls_since w1).count Event.GCLocker_block ∧
      ((idle_world 5 2 none).sync_calls_since w1).count Event.Heap_lock_lock = 1 ∧
      ((idle_world 5 2 none).sync_calls_since w1).count Event.Heap_lock_unlock = 1 ∧
      lock_discipline (idle_world 5 2 none).heap_lock_held
        ((idle_world 5 2 none).sync_calls_since w1) = true ∧
      w1.heap_lock_held = (idle_world 5 2 none).heap_lock_held ∧
      w1.gc_request_pending = (idle_world 5 2 none).gc_request_pending :=
  ⟨rfl, by decide, rfl, rfl,
    no_leaked_block_or_lock serial_vm
      (fun _ x => VM_GC_HeapInspection.skip_operation (full_inspection 4) x)
      (fun _ x => VM_GC_HeapInspection.doit serial_vm (full_inspection 4) x)
      (full_inspection 4).toVM_GC_Operation (idle_world 5 2 none) rfl (by decide)
      (fun _ x => heap_inspection_doit_frame serial_vm (full_inspection 4) x) rfl rfl⟩

/-- C4, counterexample: Serial GC, a request stamped with collection count 5
run when the counter is 6.  The prologue takes the skip path and releases the
heap lock and the GC-locker block itself; the epilogue run after it calls
`unlock` and `unblock` a second time: two releases for one acquisition, the
second one while the lock is not held. -/
theorem epilogue_after_skip_releases_twice :
    ((VMThread.execute_epilogue_always serial_vm VM_GC_Operation.skip_operation
        collecting_action ⟨5, 0, false, false, GCCause.allocation_failure⟩
        (idle_world 6 0 none)).toOption.map fun r => (r.1, r.2.2.sync_calls))
      = some (false, [Event.GCLocker_block, Event.Heap_lock_lock, Event.Heap_lock_unlock,
          Event.GCLocker_unblock, Event.Heap_lock_unlock, Event.GCLocker_unblock]) ∧
    lock_discipline false [Event.GCLocker_block, Event.Heap_lock_lock, Event.Heap_lock_unlock,
      Event.GCLocker_unblock, Event.Heap_lock_unlock, Event.GCLocker_unblock] = false ∧
    [Event.GCLocker_block, Event.Heap_lock_lock, Event.Heap_lock_unlock,
      Event.GCLocker_unblock, Event.Heap_lock_unlock, Event.GCLocker_unblock].count
        Event.Heap_lock_unlock = 2 ∧
    [Event.GCLocker_block, Event.Heap_lock_lock, Event.Heap_lock_unlock,
      Event.GCLocker_unblock, Event.Heap_lock_unlock, Event.GCLocker_unblock].count
        Event.GCLocker_unblock = 2 := by
  refine ⟨by rfl, by decide, by decide, by decide⟩

/-- C4, amended: for every operation (VM initialised, a real cause, an action
phase that leaves the heap lock and the GC locker alone), when the executor runs
the prologue and then the epilogue exactly once whatever the prologue returned:
after a prologue that returned `true` the heap lock is released exactly once for
its one acquisition, never while not held, and `unblock` is called as often as
`block`; after a prologue that returned `false` the skip path has already made
those releases, and the epilogue adds one more `unlock` (and one more `unblock`
when the collector uses the GC locker). -/
theorem epilogue_balanced_after_successful_prologue (vm : VM)
    (skip : VM_GC_Operation → World → Bool) (doit : VM_GC_Operation → World → World)
    (op : VM_GC_Operation) (w : World)
    (hinit : vm.init_completed = true) (hcause : op.gc_cause ≠ GCCause.no_gc)
    (hact : ∀ o x, (doit o x).sync_calls = x.sync_calls) :
    ∃ (b : Bool) (op1 : VM_GC_Operation) (w1 : World),
      VMThread.execute_epilogue_always vm skip doit op w = Except.ok (b, op1, w1) ∧
      (b = true →
        w.sync_calls_since w1
          = (if should_use_gclocker vm then [Event.GCLocker_block] else []) ++
            [Event.Heap_lock_lock, Event.Heap_lock_unlock] ++
            (if should_use_gclocker vm then [Event.GCLocker_unblock] else []) ∧
        lock_discipline w.heap_lock_held (w.sync_calls_since w1) = true ∧
        (w.sync_calls_since w1).count Event.Heap_lock_unlock = 1 ∧
        (w.sync_calls_since w1).count Event.Heap_lock_lock = 1 ∧
        (w.sync_calls_since w1).count Event.GCLocker_unblock
          = (w.sync_calls_since w1).count Event.GCLocker_block) ∧
      (b = false →
        w.sync_calls_since w1
          = (if should_use_gclocker vm then [Event.GCLocker_block] else []) ++
            [Event.Heap_lock_lock, Event.Heap_lock_unlock] ++
            (if should_use_gclocker vm then [Event.GCLocker_unblock] else []) ++
            [Event.Heap_lock_unlock] ++
            (if should_use_gclocker vm then [Event.GCLocker_unblock] else [])) := by
  cases hs : skip op (Heap_lock.lock (if should_use_gclocker vm then GCLocker.block w else w))
  · have hp := doit_prologue_fresh vm skip op w hinit hcause hs
    have hsync := sync_calls_since_append w
      (VM_GC_Operation.doit_epilogue vm (doit { op with prologue_succeeded := true }
        ((Heap_lock.lock (if should_use_gclocker vm then GCLocker.block w else w)).emit
          (Event.skip_operation false))))
      ((if should_use_gclocker vm then [Event.GCLocker_block] else []) ++
        [Event.Heap_lock_lock, Event.Heap_lock_unlock] ++
        (if should_use_gclocker vm then [Event.GCLocker_unblock] else []))
      (by rw [epilogue_sync, hact, fresh_world_sync]; simp)
    refine ⟨true, _, _, by simp only [VMThread.execute_epilogue_always, hp]; rfl, ?_, ?_⟩
    · intro _
      simp only [if_true]
      rw [hsync]
      cases hg : should_use_gclocker vm <;> cases w.heap_lock_held <;> simp [lock_discipline]
    · intro h
      exact absurd h (by decide)
  · have hp := doit_prologue_stale vm skip op w hinit hcause hs
    have hsync := sync_calls_since_append w
      (VM_GC_Operation.doit_epilogue vm
        (if should_use_gclocker vm then
          GCLocker.unblock (Heap_lock.unlock
            ((Heap_lock.lock (if should_use_gclocker vm then GCLocker.block w else w)).emit
              (Event.skip_operation true)))
         else
          Heap_lock.unlock
            ((Heap_lock.lock (if should_use_gclocker vm then GCLocker.block w else w)).emit
              (Event.skip_operation true))))
      ((if should_use_gclocker vm then [Event.GCLocker_block] else []) ++
        [Event.Heap_lock_lock, Event.Heap_lock_unlock] ++
        (if should_use_gclocker vm then [Event.GCLocker_unblock] else []) ++
        [Event.Heap_lock_unlock] ++
        (if should_use_gclocker vm then [Event.GCLocker_unblock] else []))
      (by rw [epilogue_sync, stale_world_sync]; simp)
    refine ⟨false, _, _, by simp only [VMThread.execute_epilogue_always, hp]; rfl, ?_, ?_⟩
    · intro h
      exact absurd h (by decide)
    · intro _
      simp only [Bool.false_eq_true, if_false]
      exact hsync

theorem epilogue_balanced_after_successful_prologue_witness :
    serial_vm.init_completed = true ∧
    (⟨5, 2, false, false, GCCause.allocation_failure⟩ : VM_GC_Operation).gc_cause
      ≠ GCCause.no_gc ∧
    ∃ (b : Bool) (op1 : VM_GC_Operation) (w1 : World),
      VMThread.execute_epilogue_always serial_vm VM_GC_Operation.skip_operation
        collecting_action ⟨5, 2, false, false, GCCause.allocation_failure⟩ (idle_world 5 2 none)
        = Except.ok (b, op1, w1) ∧
      (b = true →
        (idle_world 5 2 none).sync_calls_since w1
          = (if should_use_gclocker serial_vm then [Event.GCLocker_block] else []) ++
            [Event.Heap_lock_lock, Event.Heap_lock_unlock] ++
            (if should_use_gclocker serial_vm then [Event.GCLocker_unblock] else []) ∧
        lock_discipline (idle_world 5 2 none).heap_lock_held
          ((idle_world 5 2 none).sync_calls_since w1) = true ∧
        ((idle_world 5 2 none).sync_calls_since w1).count Event.Heap_lock_unlock = 1 ∧
        ((idle_world 5 2 none).sync_calls_since w1).count Event.Heap_lock_lock = 1 ∧
        ((idle_world 5 2 none).sync_calls_since w1).count Event.GCLocker_unblock
          = ((idle_world 5 2 none).sync_calls_since w1).count Event.GCLocker_block) ∧
      (b = false →
        (idle_world 5 2 none).sync_calls_since w1
          = (if should_use_gclocker serial_vm then [Event.GCLocker_block] else []) ++
            [Event.Heap_lock_lock, Event.Heap_lock_unlock] ++
            (if should_use_gclocker serial_vm then [Event.GCLocker_unblock] else []) ++
            [Event.Heap_lock_unlock] ++
            (if should_use_gclocker serial_vm then [Event.GCLocker_unblock] else [])) :=
  ⟨rfl, by decide,
    epilogue_balanced_after_successful_prologue serial_vm VM_GC_Operation.skip_operation
      collecting_action ⟨5, 2, false, false, GCCause.allocation_failure⟩ (idle_world 5 2 none)
      rfl (by decide) (fun _ _ => rfl)⟩

/-! ## Request deduplication -/

theorem epilogue_counters (vm : VM) (w : World) :
    (VM_GC_Operation.doit_epilogue vm w).total_collections = w.total_collections ∧
    (VM_GC_Operation.doit_epilogue vm w).total_full_collections = w.total_full_collections := by
  cases hg : should_use_gclocker vm <;> cases hr : w.has_reference_pending_list <;>
    simp [VM_GC_Operation.doit_epilogue, VM_Heap_Sync_Operation.doit_epilogue,
      OopMapCache.try_trigger_cleanup, Heap_lock.notify_all, World.emit,
      Heap_lock.unlock, GCLocker.unblock, *]

theorem stale_world_counters (vm : VM) (w : World) :
    (if should_use_gclocker vm then
        GCLocker.unblock (Heap_lock.unlock
          ((Heap_lock.lock (if should_use_gclocker vm then GCLocker.block w else w)).emit
            (Event.skip_operation true)))
      else
        Heap_lock.unlock
          ((Heap_lock.lock (if should_use_gclocker vm then GCLocker.block w else w)).emit
            (Event.skip_operation true))).total_collections = w.total_collections ∧
    (if should_use_gclocker vm then
        GCLocker.unblock (Heap_lock.unlock
          ((Heap_lock.lock (if should_use_gclocker vm then GCLocker.block w else w)).emit
            (Event.skip_operation true)))
      else
        Heap_lock.unlock
          ((Heap_lock.lock (if should_use_gclocker vm then GCLocker.block w else w)).emit
            (Event.skip_operation true))).total_full_collections = w.total_full_collections := by
  cases should_use_gclocker vm <;>
    simp [World.emit, Heap_lock.lock, Heap_lock.unlock, GCLocker.block, GCLocker.unblock]

/-- A queue of requests that are all stale is skipped one by one. -/
theorem execute_all_stale (vm : VM) (doit : VM_GC_Operation → World → World)
    (hinit : vm.init_completed = true) (t f : Nat) :
    ∀ (ops : List VM_GC_Operation) (w : World),
      w.total_collections = t → w.total_full_collections = f →
      (∀ op ∈ ops, op.gc_cause ≠ GCCause.no_gc ∧ op.gc_count_before ≠ t ∧
        (op.full = true → op.full_gc_count_before ≠ f)) →
      ∃ w1 : World,
        VMThread.execute_all vm doit ops w = Except.ok (List.replicate ops.length false, w1)
  | [], w, _, _, _ => ⟨w, rfl⟩
  | op :: ops, w, ht, hf, hops => by
    obtain ⟨hcause, hc, hfc⟩ := hops op (List.mem_cons_self _ _)
    have hs : VM_GC_Operation.skip_operation op w = true := by
      simp only [VM_GC_Operation.skip_operation, ht, hf]
      cases hfl : op.full <;> simp [hc]
      exact hfc hfl
    have hp := doit_prologue_stale vm VM_GC_Operation.skip_operation op w hinit hcause
      ((skip_operation_entered vm op w).trans hs)
    obtain ⟨w1, h1⟩ := execute_all_stale vm doit hinit t f ops _
      ((stale_world_counters vm w).1.trans ht) ((stale_world_counters vm w).2.trans hf)
      (fun o ho => hops o (List.mem_cons_of_mem _ ho))
    exact ⟨w1, by
      simp only [VMThread.execute_all, VMThread.execute, hp, Bool.false_eq_true, if_false, h1,
        List.length_cons, List.replicate_succ]⟩

/-- C1: for every non-empty queue of requests of one kind (all full or all not
full) that carry the collection-count snapshot `c` (a full request also a
full-count snapshot not above the current full counter), run one after another
by the executor from a world whose collection counter is `c`, every action
phase that runs advancing the counter(s) its request is stamped with: the
prologue of the first request returns `true` and the prologue of each of the
others returns `false`. -/
theorem one_collection_per_snapshot (vm : VM) (doit : VM_GC_Operation → World → World)
    (ops : List VM_GC_Operation) (w : World) (c : Nat) (requested_full : Bool)
    (hinit : vm.init_completed = true) (hne : ops ≠ [])
    (hops : ∀ op ∈ ops, op.gc_cause ≠ GCCause.no_gc ∧ op.gc_count_before = c ∧
      op.full = requested_full ∧
      (requested_full = true → op.full_gc_count_before ≤ w.total_full_collections))
    (hstart : w.total_collections = c)
    (hact : ∀ o x, x.total_collections < (doit o x).total_collections ∧
      (o.full = true → x.total_full_collections < (doit o x).total_full_collections)) :
    ∃ w1 : World,
      VMThread.execute_all vm doit ops w
        = Except.ok (true :: List.replicate (ops.length - 1) false, w1) := by
  cases ops with
  | nil => exact absurd rfl hne
  | cons op rest =>
    obtain ⟨hcause, hc, hfl, hsnap⟩ := hops op (List.mem_cons_self _ _)
    have hs : VM_GC_Operation.skip_operation op w = false := by
      simp [VM_GC_Operation.skip_operation, hc, hstart]
    have hp := doit_prologue_fresh vm VM_GC_Operation.skip_operation op w hinit hcause
      ((skip_operation_entered vm op w).trans hs)
    have hent := entered_counters vm w
    have hadv := hact { op with prologue_succeeded := true }
      ((Heap_lock.lock (if should_use_gclocker vm then GCLocker.block w else w)).emit
        (Event.skip_operation false))
    have hepi := epilogue_counters vm (doit { op with prologue_succeeded := true }
      ((Heap_lock.lock (if should_use_gclocker vm then GCLocker.block w else w)).emit
        (Event.skip_operation false)))
    have hT : w.total_collections < (doit { op with prologue_succeeded := true }
      ((Heap_lock.lock (if should_use_gclocker vm then GCLocker.block w else w)).emit
        (Event.skip_operation false))).total_collections := by
      have := hadv.1
      simpa [World.emit, hent.1] using this
    have hF : requested_full = true → w.total_full_collections <
        (doit { op with prologue_succeeded := true }
          ((Heap_lock.lock (if should_use_gclocker vm then GCLocker.block w else w)).emit
            (Event.skip_operation false))).total_full_collections := by
      intro h
      have := hadv.2 (hfl.trans h)
      simpa [World.emit, hent.2] using this
    obtain ⟨w1, h1⟩ := execute_all_stale vm doit hinit _ _ rest _ hepi.1 hepi.2
      (fun o ho => by
        obtain ⟨ocause, oc, ofl, osnap⟩ := hops o (List.mem_cons_of_mem _ ho)
        refine ⟨ocause, by omega, fun h => ?_⟩
        have h2 := hF (ofl.symm.trans h)
        have h3 := osnap (ofl.symm.trans h)
        omega)
    exact ⟨w1, by
      simp only [VMThread.execute_all, VMThread.execute, hp, if_true, h1, List.length_cons,
        Nat.add_sub_cancel]⟩

theorem one_collection_per_snapshot_witness :
    serial_vm.init_completed = true ∧
    (VMThread.execute_all serial_vm collecting_action
      [(VM_CollectForAllocation.ctor serial_vm 0 false 16 5 GCCause.allocation_failure
          (idle_world 5 2 none)).1.toVM_GC_Operation,
       (VM_CollectForAllocation.ctor serial_vm 0 false 32 5 GCCause.allocation_failure
          (idle_world 5 2 none)).1.toVM_GC_Operation]
      (idle_world 5 2 none)).toOption.map (fun r => (r.1, r.2.total_collections))
      = some ([true, false], 6) ∧
    ∃ w1 : World,
      VMThread.execute_all serial_vm collecting_action
        [(VM_CollectForAllocation.ctor serial_vm 0 false 16 5 GCCause.allocation_failure
            (idle_world 5 2 none)).1.toVM_GC_Operation,
         (VM_CollectForAllocation.ctor serial_vm 0 false 32 5 GCCause.allocation_failure
            (idle_world 5 2 none)).1.toVM_GC_Operation]
        (idle_world 5 2 none)
        = Except.ok (true :: List.replicate (2 - 1) false, w1) :=
  ⟨rfl, by rfl,
    one_collection_per_snapshot serial_vm collecting_action _ (idle_world 5 2 none) 5 false rfl
      (by simp)
      (by
        intro op hop
        simp only [List.mem_cons, List.mem_singleton, List.not_mem_nil, or_false] at hop
        rcases hop with h | h <;> subst h <;> refine ⟨by decide, rfl, rfl, by simp⟩)
      rfl
      (fun o x => ⟨by simp [collecting_action, World.complete_collection], by
        intro h
        simp [collecting_action, World.complete_collection, h]⟩)⟩

/-! ## Metadata allocation -/

/-- When the attempt number `j` of the escalation is the first to be answered
with a non-null address, `doit` stops right after it. -/
theorem metadata_doit_first_success (vm : VM) (op : VM_CollectForMetadataAllocation)
    (w : World) (j h : Nat) (hj : j < (escalation vm op.gc_cause).length)
    (hprev : ∀ i, i < j → vm.metaspace_answer (w.metaspace_attempts + i) = none)
    (hsome : vm.metaspace_answer (w.metaspace_attempts + j) = some h) :
    (VM_CollectForMetadataAllocation.doit vm op w).1 = { op with result := some h } ∧
    (VM_CollectForMetadataAllocation.doit vm op w).2.trace
      = w.trace ++ climbed vm.metaspace_answer op.size op.mdtype w.metaspace_attempts
          ((escalation vm op.gc_cause).take (j + 1)) ∧
    (VM_CollectForMetadataAllocation.doit vm op w).2.metaspace_attempts
      = w.metaspace_attempts + (j + 1) := by
  have e0 : 0 < j → vm.metaspace_answer w.metaspace_attempts = none := fun hh => hprev 0 hh
  have e1 : 1 < j → vm.metaspace_answer (w.metaspace_attempts + 1) = none := hprev 1
  have e2 : 2 < j → vm.metaspace_answer (w.metaspace_attempts + 2) = none := hprev 2
  have e3 : 3 < j → vm.metaspace_answer (w.metaspace_attempts + 3) = none := hprev 3
  clear hprev
  cases hI : vm.INCLUDE_G1GC <;> cases hU : vm.UseG1GC <;>
    cases hC : vm.ClassUnloadingWithConcurrentMark <;>
    simp [escalation, hI, hU, hC] at hj ⊢ <;>
    interval_cases j <;>
    simp_all [VM_CollectForMetadataAllocation.doit, Id.run, ClassLoaderMetaspace.allocate,
      ClassLoaderMetaspace.expand_and_allocate, CollectedHeap.collect_as_vm_thread,
      G1CollectedHeap.start_concurrent_gc_for_metadata_allocation, World.emit,
      World.log_line, climbed, Nat.add_assoc]

/-- When every attempt of the escalation is answered with null, `doit` climbs all
of it and ends with an empty result. -/
theorem metadata_doit_all_fail (vm : VM) (op : VM_CollectForMetadataAllocation) (w : World)
    (hall : ∀ i, i < (escalation vm op.gc_cause).length →
      vm.metaspace_answer (w.metaspace_attempts + i) = none) :
    (VM_CollectForMetadataAllocation.doit vm op w).1 = { op with result := none } ∧
    (VM_CollectForMetadataAllocation.doit vm op w).2.trace
      = w.trace ++ climbed vm.metaspace_answer op.size op.mdtype w.metaspace_attempts
          (escalation vm op.gc_cause) ∧
    (VM_CollectForMetadataAllocation.doit vm op w).2.metaspace_attempts
      = w.metaspace_attempts + (escalation vm op.gc_cause).length := by
  have e0 : 0 < (escalation vm op.gc_cause).length →
      vm.metaspace_answer w.metaspace_attempts = none := fun hh => hall 0 hh
  have e1 := hall 1
  have e2 := hall 2
  have e3 := hall 3
  have e4 := hall 4
  clear hall
  cases hI : vm.INCLUDE_G1GC <;> cases hU : vm.UseG1GC <;>
    cases hC : vm.ClassUnloadingWithConcurrentMark <;>
    simp [escalation, hI, hU, hC] at e0 e1 e2 e3 e4 ⊢ <;>
    simp_all [VM_CollectForMetadataAllocation.doit, Id.run, ClassLoaderMetaspace.allocate,
      ClassLoaderMetaspace.expand_and_allocate, CollectedHeap.collect_as_vm_thread,
      G1CollectedHeap.start_concurrent_gc_for_metadata_allocation, World.emit,
      World.log_line, climbed, Nat.add_assoc]

/-- C6: for every allocator behaviour and collector configuration,
`VM_CollectForMetadataAllocation::doit` makes its calls in the fixed order of the
escalation (allocate; for G1 with concurrent class unloading: start a
concurrent cycle, expand_and_allocate; collect(metadata_GC_threshold), allocate;
expand_and_allocate; collect(metadata_GC_clear_soft_refs), allocate) and stops
right after the first attempt answered with a non-null address: the result is
that address, the calls made are those of the rungs up to and including that
attempt, and no further attempt is made; when every attempt is answered with
null all rungs are climbed; the result is empty if and only if every attempt of
the escalation was answered with null. -/
theorem metadata_escalation_stops_at_first_success (vm : VM)
    (op : VM_CollectForMetadataAllocation) (w : World) :
    (∀ (j : Nat) (h : Nat), j < (escalation vm op.gc_cause).length →
      (∀ i, i < j → vm.metaspace_answer (w.metaspace_attempts + i) = none) →
      vm.metaspace_answer (w.metaspace_attempts + j) = some h →
      (VM_CollectForMetadataAllocation.doit vm op w).1 = { op with result := some h } ∧
      (VM_CollectForMetadataAllocation.doit vm op w).2.trace
        = w.trace ++ climbed vm.metaspace_answer op.size op.mdtype w.metaspace_attempts
            ((escalation vm op.gc_cause).take (j + 1)) ∧
      (VM_CollectForMetadataAllocation.doit vm op w).2.metaspace_attempts
        = w.metaspace_attempts + (j + 1)) ∧
    ((∀ i, i < (escalation vm op.gc_cause).length →
        vm.metaspace_answer (w.metaspace_attempts + i) = none) →
      (VM_CollectForMetadataAllocation.doit vm op w).1 = { op with result := none } ∧
      (VM_CollectForMetadataAllocation.doit vm op w).2.trace
        = w.trace ++ climbed vm.metaspace_answer op.size op.mdtype w.metaspace_attempts
            (escalation vm op.gc_cause) ∧
      (VM_CollectForMetadataAllocation.doit vm op w).2.metaspace_attempts
        = w.metaspace_attempts + (escalation vm op.gc_cause).length) ∧
    ((VM_CollectForMetadataAllocation.doit vm op w).1.result = none ↔
      ∀ i, i < (escalation vm op.gc_cause).length →
        vm.metaspace_answer (w.metaspace_attempts + i) = none) := by
  refine ⟨fun j h hj hprev hsome => metadata_doit_first_success vm op w j h hj hprev hsome,
    fun hall => metadata_doit_all_fail vm op w hall, ?_, ?_⟩
  · intro hres
    by_contra hne
    push_neg at hne
    have hex : ∃ i, i < (escalation vm op.gc_cause).length ∧
        vm.metaspace_answer (w.metaspace_attempts + i) ≠ none := by
      obtain ⟨i, hi, hs⟩ := hne
      exact ⟨i, hi, hs⟩
    have hj := Nat.find_spec hex
    obtain ⟨h, hh⟩ := Option.ne_none_iff_exists'.mp hj.2
    have hfirst := metadata_doit_first_success vm op w (Nat.find hex) h hj.1
      (fun i hi => by
        by_contra hn
        exact Nat.find_min hex hi ⟨lt_trans hi hj.1, hn⟩) hh
    rw [hfirst.1] at hres
    simp at hres
  · intro hall
    rw [(metadata_doit_all_fail vm op w hall).1]

theorem metadata_escalation_stops_at_first_success_witness :
    (VM_CollectForMetadataAllocation.doit
        (sample_vm false false true false false fifth_time_lucky)
        ⟨⟨5, 2, true, true, GCCause.metadata_GC_threshold⟩, none, 3, MetadataType.ClassType, 1⟩
        (idle_world 5 2 none)).1.result = some 4096 ∧
    (VM_CollectForMetadataAllocation.doit
        (sample_vm false false true false false fifth_time_lucky)
        ⟨⟨5, 2, true, true, GCCause.metadata_GC_threshold⟩, none, 3, MetadataType.ClassType, 1⟩
        (idle_world 5 2 none)).2.metaspace_attempts = 0 + (4 + 1) := by
  have h := (metadata_escalation_stops_at_first_success
    (sample_vm false false true false false fifth_time_lucky)
    ⟨⟨5, 2, true, true, GCCause.metadata_GC_threshold⟩, none, 3, MetadataType.ClassType, 1⟩
    (idle_world 5 2 none)).1 4 4096 (by decide)
    (by intro i hi; interval_cases i <;> rfl) rfl
  exact ⟨by rw [h.1], h.2.2⟩

/-- C5, counterexample: Parallel GC (no G1 step), an allocator that fails on the
first four attempts and would succeed on a fifth.  `doit` makes four attempts
only, after requesting the two collections, and ends with an empty result. -/
theorem metadata_escalation_has_four_attempts_without_g1 :
    (∀ i, i < 4 → fifth_time_lucky (0 + i) = none) ∧
    fifth_time_lucky (0 + 4) = some 4096 ∧
    (VM_CollectForMetadataAllocation.doit
        (sample_vm false true false false false fifth_time_lucky)
        ⟨⟨5, 2, true, true, GCCause.metadata_GC_threshold⟩, none, 3, MetadataType.ClassType, 1⟩
        (idle_world 5 2 none)).1.result = none ∧
    (VM_CollectForMetadataAllocation.doit
        (sample_vm false true false false false fifth_time_lucky)
        ⟨⟨5, 2, true, true, GCCause.metadata_GC_threshold⟩, none, 3, MetadataType.ClassType, 1⟩
        (idle_world 5 2 none)).2.trace
      = [Event.allocate 3 MetadataType.ClassType none,
         Event.collect_as_vm_thread GCCause.metadata_GC_threshold,
         Event.allocate 3 MetadataType.ClassType none,
         Event.expand_and_allocate 3 MetadataType.ClassType none,
         Event.collect_as_vm_thread GCCause.metadata_GC_clear_soft_refs,
         Event.allocate 3 MetadataType.ClassType none] := by
  refine ⟨by decide, by decide, by rfl, by rfl⟩

/-- C5, amended: for every metadata allocation request, when the allocator
fails on the first four attempts made by `doit` and would succeed on the fifth:
under G1 with concurrent class unloading (G1 built in) the operation ends with
that non-empty result, exactly two collections were requested through
`collect_as_vm_thread`, the first with cause `metadata_GC_threshold`, the second
with `metadata_GC_clear_soft_refs`, and the fifth attempt is the plain allocate
after the second collection; under every other configuration `doit` makes four
attempts only, after the same two collections, and the result is empty. -/
theorem metadata_escalation_fifth_attempt (vm : VM) (op : VM_CollectForMetadataAllocation)
    (w : World) (h : Nat)
    (hfail : ∀ i, i < 4 → vm.metaspace_answer (w.metaspace_attempts + i) = none)
    (hsucc : vm.metaspace_answer (w.metaspace_attempts + 4) = some h) :
    ((vm.INCLUDE_G1GC && (vm.UseG1GC && vm.ClassUnloadingWithConcurrentMark)) = true →
      (VM_CollectForMetadataAllocation.doit vm op w).1.result = some h ∧
      (VM_CollectForMetadataAllocation.doit vm op w).2.trace = w.trace ++
        [Event.allocate op.size op.mdtype none,
         Event.start_concurrent_gc_for_metadata_allocation op.gc_cause,
         Event.expand_and_allocate op.size op.mdtype none,
         Event.collect_as_vm_thread GCCause.metadata_GC_threshold,
         Event.allocate op.size op.mdtype none,
         Event.expand_and_allocate op.size op.mdtype none,
         Event.collect_as_vm_thread GCCause.metadata_GC_clear_soft_refs,
         Event.allocate op.size op.mdtype (some h)] ∧
      collections_requested (VM_CollectForMetadataAllocation.doit vm op w).2.trace
        = collections_requested w.trace ++
          [GCCause.metadata_GC_threshold, GCCause.metadata_GC_clear_soft_refs]) ∧
    ((vm.INCLUDE_G1GC && (vm.UseG1GC && vm.ClassUnloadingWithConcurrentMark)) = false →
      (VM_CollectForMetadataAllocation.doit vm op w).1.result = none ∧
      (VM_CollectForMetadataAllocation.doit vm op w).2.trace = w.trace ++
        [Event.allocate op.size op.mdtype none,
         Event.collect_as_vm_thread GCCause.metadata_GC_threshold,
         Event.allocate op.size op.mdtype none,
         Event.expand_and_allocate op.size op.mdtype none,
         Event.collect_as_vm_thread GCCause.metadata_GC_clear_soft_refs,
         Event.allocate op.size op.mdtype none] ∧
      collections_requested (VM_CollectForMetadataAllocation.doit vm op w).2.trace
        = collections_requested w.trace ++
          [GCCause.metadata_GC_threshold, GCCause.metadata_GC_clear_soft_refs] ∧
      (VM_CollectForMetadataAllocation.doit vm op w).2.metaspace_attempts
        = w.metaspace_attempts + 4) := by
  have e0 : vm.metaspace_answer w.metaspace_attempts = none := hfail 0 (by omega)
  have e1 := hfail 1 (by omega)
  have e2 := hfail 2 (by omega)
  have e3 := hfail 3 (by omega)
  constructor
  · intro hg
    have hlen : 4 < (escalation vm op.gc_cause).length := by simp [escalation, hg]
    have hrun := metadata_doit_first_success vm op w 4 h hlen hfail hsucc
    have htrace : (VM_CollectForMetadataAllocation.doit vm op w).2.trace = w.trace ++
        [Event.allocate op.size op.mdtype none,
         Event.start_concurrent_gc_for_metadata_allocation op.gc_cause,
         Event.expand_and_allocate op.size op.mdtype none,
         Event.collect_as_vm_thread GCCause.metadata_GC_threshold,
         Event.allocate op.size op.mdtype none,
         Event.expand_and_allocate op.size op.mdtype none,
         Event.collect_as_vm_thread GCCause.metadata_GC_clear_soft_refs,
         Event.allocate op.size op.mdtype (some h)] := by
      rw [hrun.2.1]
      simp [escalation, hg, climbed, Nat.add_assoc, e0, e1, e2, e3, hsucc]
    refine ⟨by rw [hrun.1], htrace, ?_⟩
    rw [htrace, collections_requested_append]
    simp [collections_requested]
  · intro hg
    have hlen : (escalation vm op.gc_cause).length = 4 := by simp [escalation, hg]
    have hrun := metadata_doit_all_fail vm op w (by rw [hlen]; exact hfail)
    have htrace : (VM_CollectForMetadataAllocation.doit vm op w).2.trace = w.trace ++
        [Event.allocate op.size op.mdtype none,
         Event.collect_as_vm_thread GCCause.metadata_GC_threshold,
         Event.allocate op.size op.mdtype none,
         Event.expand_and_allocate op.size op.mdtype none,
         Event.collect_as_vm_thread GCCause.metadata_GC_clear_soft_refs,
         Event.allocate op.size op.mdtype none] := by
      rw [hrun.2.1]
      simp [escalation, hg, climbed, Nat.add_assoc, e0, e1, e2, e3]
    refine ⟨by rw [hrun.1], htrace, ?_, by rw [hrun.2.2, hlen]⟩
    rw [htrace, collections_requested_append]
    simp [collections_requested]

theorem metadata_escalation_fifth_attempt_witness :
    (∀ i, i < 4 → (sample_vm false false true false false fifth_time_lucky).metaspace_answer
      ((idle_world 5 2 none).metaspace_attempts + i) = none) ∧
    (sample_vm false false true false false fifth_time_lucky).metaspace_answer
      ((idle_world 5 2 none).metaspace_attempts + 4) = some 4096 ∧
    (VM_CollectForMetadataAllocation.doit
        (sample_vm false false true false false fifth_time_lucky)
        ⟨⟨5, 2, true, true, GCCause.metadata_GC_threshold⟩, none, 3, MetadataType.ClassType, 1⟩
        (idle_world 5 2 none)).1.result = some 4096 ∧
    collections_requested (VM_CollectForMetadataAllocation.doit
        (sample_vm false false true false false fifth_time_lucky)
        ⟨⟨5, 2, true, true, GCCause.metadata_GC_threshold⟩, none, 3, MetadataType.ClassType, 1⟩
        (idle_world 5 2 none)).2.trace
      = collections_requested (idle_world 5 2 none).trace ++
        [GCCause.metadata_GC_threshold, GCCause.metadata_GC_clear_soft_refs] :=
  ⟨by intro i hi; interval_cases i <;> rfl, rfl,
    ((metadata_escalation_fifth_attempt
      (sample_vm false false true false false fifth_time_lucky)
      ⟨⟨5, 2, true, true, GCCause.metadata_GC_threshold⟩, none, 3, MetadataType.ClassType, 1⟩
      (idle_world 5 2 none) 4096 (by intro i hi; interval_cases i <;> rfl) rfl).1 rfl).1,
    ((metadata_escalation_fifth_attempt
      (sample_vm false false true false false fifth_time_lucky)
      ⟨⟨5, 2, true, true, GCCause.metadata_GC_threshold⟩, none, 3, MetadataType.ClassType, 1⟩
      (idle_world 5 2 none) 4096 (by intro i hi; interval_cases i <;> rfl) rfl).1 rfl).2.2⟩

end Hotspot
